import Mathlib

/-!
Verification development for `omenhz.py` (Omen Hz Controller Pro).

The Python source is shallowly embedded here:
* the persisted configuration document is modelled as a `Json` value
  (Python `json.load` output; machine ints are unbounded, as in Python);
* external OS effects (`powercfg` invocations, display-mode calls) are
  modelled with explicit environment records supplying each call's outcome,
  and the embedded functions return the call trace they would perform;
* Python exceptions that the source catches are modelled with `Option` /
  `Except` inputs and total functions.
-/

set_option autoImplicit false

namespace OmenHz

/-- Parsed JSON value, as returned by Python's `json.load`.  Objects model
Python dicts produced by the JSON parser, so keys are unique and in
insertion order.  (The source never persists floats, so no float case is
needed for the documents this program reads and writes.) -/
inductive Json where
  | null
  | bool (b : Bool)
  | int (n : Int)
  | str (s : String)
  | arr (xs : List Json)
  | obj (kvs : List (String × Json))
  deriving Repr

/-- Python truthiness (`bool(x)`) of a JSON-shaped value:
`None`, `False`, `0`, `""`, `[]`, `{}` are falsy, everything else truthy. -/
def pyTruthy : Json → Bool
  | Json.null => false
  | Json.bool b => b
  | Json.int n => n != 0
  | Json.str s => s != ""
  | Json.arr xs => !xs.isEmpty
  | Json.obj kvs => !kvs.isEmpty

/-- Is this JSON value an object (a Python dict)? -/
def Json.isObj : Json → Bool
  | Json.obj _ => true
  | _ => false

/-- One step of Python `int(string)` digit parsing: digits with single
underscores allowed between digits (PEP 515). `prevDigit` records whether
the previous character was a digit, `seen` whether any digit was seen. -/
def pyDigits : List Char → Bool → Bool → Option Nat → Option Nat
  | [], prevDigit, seen, acc =>
    if prevDigit ∧ seen then acc else none
  | c :: rest, prevDigit, seen, acc =>
    if c.isDigit then
      pyDigits rest true true (acc.map (fun a => a * 10 + (c.toNat - '0'.toNat)))
    else if c = '_' ∧ prevDigit then
      pyDigits rest false seen acc
    else none

/-- Python `int(s)` on a string: optional surrounding whitespace, optional
sign, then a digit run (underscore separators allowed).  Returns `none`
when Python would raise `ValueError`. -/
def pyStrToInt (s : String) : Option Int :=
  let chars := s.data.dropWhile (fun c => c.isWhitespace)
  let chars := (chars.reverse.dropWhile (fun c => c.isWhitespace)).reverse
  match chars with
  | '+' :: rest => (pyDigits rest false false (some 0)).map (fun n => (n : Int))
  | '-' :: rest => (pyDigits rest false false (some 0)).map (fun n => -(n : Int))
  | rest => (pyDigits rest false false (some 0)).map (fun n => (n : Int))

/-- Python `int(x)` on a JSON-shaped value: ints pass through, bools map to
0/1, numeric strings are parsed, everything else raises (`none`). -/
def pyToInt : Json → Option Int
  | Json.int n => some n
  | Json.bool b => some (if b then 1 else 0)
  | Json.str s => pyStrToInt s
  | _ => none

/-- Python `d.get(key, dflt)` on a dict modelled as an association list. -/
def jgetD : List (String × Json) → String → Json → Json
  | [], _, dflt => dflt
  | (k, v) :: rest, key, dflt => if k = key then v else jgetD rest key dflt

/-- Python `x or {}` as used in `load_config`: keep `x` when truthy, else
the empty dict. -/
def pyOrEmptyDict (j : Json) : Json :=
  if pyTruthy j then j else Json.obj []

/-- `CpuPolicy` dataclass (`omenhz.py` lines 374-381).  Fields are Python
ints throughout the program (defaults, `int(...)` conversions, UI sliders),
so they are embedded as `Int`. -/
structure CpuPolicy where
  epp : Int := 0
  boost_mode : Int := 1
  cpu_min : Int := 5
  cpu_max : Int := 100
  core_parking_min : Int := 100
  cooling_policy : Int := 1
  deriving Repr, DecidableEq

/-- `default_cpu_ac()` (line 384). -/
def default_cpu_ac : CpuPolicy :=
  { epp := 0, boost_mode := 2, cpu_min := 5, cpu_max := 100,
    core_parking_min := 100, cooling_policy := 1 }

/-- `default_cpu_bat()` (line 388). -/
def default_cpu_bat : CpuPolicy :=
  { epp := 90, boost_mode := 0, cpu_min := 5, cpu_max := 70,
    core_parking_min := 20, cooling_policy := 0 }

/-- `AppConfig` dataclass (lines 392-405).  The toggle fields are always
Python bools (constructed through `bool(...)`).  The hz/guid fields are
whatever `raw.get` returned from the persisted document (the dataclass
annotation says `Optional[int]`/`Optional[str]` but `load_config` performs
no conversion on them), so they are embedded as `Json` with `Json.null`
playing the role of Python `None`. -/
structure AppConfig where
  auto_mode : Bool := true
  set_power_plan : Bool := true
  set_cpu_policy : Bool := true
  ac_hz : Json := Json.null
  battery_hz : Json := Json.null
  ac_plan_guid : Json := Json.null
  battery_plan_guid : Json := Json.null
  cpu_ac : CpuPolicy := default_cpu_ac
  cpu_bat : CpuPolicy := default_cpu_bat
  deriving Repr

/-- `_dict_to_cpu_policy(d, fallback)` (lines 408-419): builds a `CpuPolicy`
from a dict, falling back on any exception — `d.get` raising (non-dict `d`)
or any `int(...)` raising (non-int-convertible field). -/
def _dict_to_cpu_policy (d : Json) (fallback : CpuPolicy) : CpuPolicy :=
  match d with
  | Json.obj kvs =>
    match pyToInt (jgetD kvs "epp" (Json.int fallback.epp)),
          pyToInt (jgetD kvs "boost_mode" (Json.int fallback.boost_mode)),
          pyToInt (jgetD kvs "cpu_min" (Json.int fallback.cpu_min)),
          pyToInt (jgetD kvs "cpu_max" (Json.int fallback.cpu_max)),
          pyToInt (jgetD kvs "core_parking_min" (Json.int fallback.core_parking_min)),
          pyToInt (jgetD kvs "cooling_policy" (Json.int fallback.cooling_policy)) with
    | some e, some b, some mn, some mx, some cp, some cl =>
      { epp := e, boost_mode := b, cpu_min := mn, cpu_max := mx,
        core_parking_min := cp, cooling_policy := cl }
    | _, _, _, _, _, _ => fallback
  | _ => fallback

/-- `load_config()` (lines 422-444).  The input is the persisted document:
`none` when the file is absent, unreadable, or not parseable as JSON (all
of which the source turns into the defaulted config — the missing-file
check before the `try` and the blanket `except` land in the same place);
`some raw` when `json.load` produced `raw`.  A non-object `raw` makes
`raw.get` raise `AttributeError`, caught by the same `except`. -/
def load_config (doc : Option Json) : AppConfig :=
  match doc with
  | none => {}
  | some (Json.obj kvs) =>
    { auto_mode := pyTruthy (jgetD kvs "auto_mode" (Json.bool true))
      set_power_plan := pyTruthy (jgetD kvs "set_power_plan" (Json.bool true))
      set_cpu_policy := pyTruthy (jgetD kvs "set_cpu_policy" (Json.bool true))
      ac_hz := jgetD kvs "ac_hz" Json.null
      battery_hz := jgetD kvs "battery_hz" Json.null
      ac_plan_guid := jgetD kvs "ac_plan_guid" Json.null
      battery_plan_guid := jgetD kvs "battery_plan_guid" Json.null
      cpu_ac := _dict_to_cpu_policy (pyOrEmptyDict (jgetD kvs "cpu_ac" (Json.obj []))) default_cpu_ac
      cpu_bat := _dict_to_cpu_policy (pyOrEmptyDict (jgetD kvs "cpu_bat" (Json.obj []))) default_cpu_bat }
  | some _ => {}

/-- `asdict` on a `CpuPolicy` (field order of the dataclass). -/
def cpuPolicyToJson (p : CpuPolicy) : Json :=
  Json.obj [("epp", Json.int p.epp), ("boost_mode", Json.int p.boost_mode),
            ("cpu_min", Json.int p.cpu_min), ("cpu_max", Json.int p.cpu_max),
            ("core_parking_min", Json.int p.core_parking_min),
            ("cooling_policy", Json.int p.cooling_policy)]

/-- `save_config(cfg)` (lines 447-451): the document `json.dump` receives,
namely `asdict(cfg)` in dataclass field order.  `json.dump` is a
deterministic function of this document (fixed key order, fixed
formatting), so two equal documents serialize to identical bytes. -/
def save_config (cfg : AppConfig) : Json :=
  Json.obj [("auto_mode", Json.bool cfg.auto_mode),
            ("set_power_plan", Json.bool cfg.set_power_plan),
            ("set_cpu_policy", Json.bool cfg.set_cpu_policy),
            ("ac_hz", cfg.ac_hz),
            ("battery_hz", cfg.battery_hz),
            ("ac_plan_guid", cfg.ac_plan_guid),
            ("battery_plan_guid", cfg.battery_plan_guid),
            ("cpu_ac", cpuPolicyToJson cfg.cpu_ac),
            ("cpu_bat", cpuPolicyToJson cfg.cpu_bat)]

/-! ## Display / Hz (`set_hz`, lines 168-189) -/

/-- Python `repr` of a list of ints, as rendered by the f-string
`f"... Desteklenen: {supported}"`. -/
def pyListRepr (xs : List Int) : String :=
  "[" ++ String.intercalate ", " (xs.map toString) ++ "]"

/-- Display-side environment for `set_hz`: the primary device name
(`get_primary_device_name`, already `None` on failure), the current
refresh rate read (`.error e` when `EnumDisplaySettings` or the int
conversion raises with text `e`), the supported-frequency list
(`list_supported_hz_for_current_mode` result), and the outcome of
`win32api.ChangeDisplaySettings` (`.error e` when it raises; its return
value is discarded by the source). -/
structure DisplayEnv where
  device : Option String
  current : Except String Int
  supported : List Int
  change_result : Except String Unit

/-- Result of `set_hz`: the `(bool, msg)` pair the source returns, plus
whether the OS mode-change call (`ChangeDisplaySettings`) was reached. -/
structure SetHzOut where
  ok : Bool
  msg : String
  change_invoked : Bool
  deriving Repr, DecidableEq

/-- Python `if not dev` on the device name (line 171): `None` and the
empty string are falsy. -/
def deviceMissing : Option String → Bool
  | none => true
  | some d => d == ""

/-- `set_hz(hz)` (lines 168-189). -/
def set_hz (env : DisplayEnv) (hz : Int) : SetHzOut :=
  if deviceMissing env.device then
    { ok := false, msg := "Display device bulunamadı.", change_invoked := false }
  else
    match env.current with
    | Except.error e =>
      { ok := false, msg := "Hata: " ++ e, change_invoked := false }
    | Except.ok current_hz =>
      if current_hz = hz then
        { ok := true, msg := "Zaten bu Hz'de.", change_invoked := false }
      else
        let supported := env.supported
        if !supported.isEmpty && !supported.contains hz then
          { ok := false,
            msg := toString hz ++ " Hz desteklenmiyor. Desteklenen: " ++ pyListRepr supported,
            change_invoked := false }
        else
          match env.change_result with
          | Except.error e =>
            { ok := false, msg := "Hata: " ++ e, change_invoked := true }
          | Except.ok _ =>
            { ok := true, msg := "OK", change_invoked := true }

/-! ## Power scheme activation (`set_power_scheme_by_guid`, lines 242-251) -/

/-- Environment for `set_power_scheme_by_guid`: the `(returncode, output)`
of `powercfg /setactive <guid>` and the scheme GUID that
`get_active_power_scheme()` reads back afterwards (`none` when no active
scheme is found in the `/list` output). -/
structure PlanEnv where
  setactive : Int × String
  active_after : Option String

/-- Result of `set_power_scheme_by_guid`: the `(bool, msg)` pair plus
whether the OS activation command was invoked. -/
structure PlanOut where
  ok : Bool
  msg : String
  os_invoked : Bool
  deriving Repr, DecidableEq

/-- Python `s.lower()` as used on the GUID strings of line 249: ASCII
case mapping (scheme GUIDs are hex digits and dashes, so the ASCII
mapping coincides with Python's). -/
def strLower (s : String) : String :=
  String.mk (s.data.map Char.toLower)

/-- `set_power_scheme_by_guid(guid)` (lines 242-251). -/
def set_power_scheme_by_guid (env : PlanEnv) (guid : String) : PlanOut :=
  if guid = "" then
    { ok := false, msg := "GUID boş.", os_invoked := false }
  else
    let rc := env.setactive.1
    let out := env.setactive.2
    if rc ≠ 0 then
      { ok := false,
        msg := if out = "" then "powercfg /setactive başarısız." else out,
        os_invoked := true }
    else
      if (strLower (env.active_after.getD "") = strLower guid) then
        { ok := true, msg := "OK", os_invoked := true }
      else
        { ok := false, msg := "Plan değişti doğrulanamadı (OEM kısıtı olabilir).",
          os_invoked := true }

/-! ## Scheme duplication (`duplicate_scheme`, lines 261-273) -/

/-- Environment abstracting `_run_powercfg` (lines 195-210): for an
argument list, the `(returncode, combined stdout+stderr)` it yields (an
exception inside `subprocess.run` is already folded in as `(1, str(e))`
by the source). -/
structure PowercfgEnv where
  run : List String → Int × String

/-- `_run_powercfg(args)` (lines 195-210), relative to the environment. -/
def _run_powercfg (env : PowercfgEnv) (args : List String) : Int × String :=
  env.run args

/-- Character class of the GUID pattern `[0-9a-fA-F\-]`. -/
def isGuidChar (c : Char) : Bool :=
  c.isDigit || ('a' ≤ c && c ≤ 'f') || ('A' ≤ c && c ≤ 'F') || c = '-'

/-- `re.search(r"([0-9a-fA-F\-]{36})", out)` (line 270): the leftmost
position at which 36 consecutive characters of the class occur; returns
those 36 characters. -/
def findGuid36 : List Char → Option (List Char)
  | [] => none
  | c :: rest =>
    let cand := (c :: rest).take 36
    if cand.length = 36 && cand.all isGuidChar then some cand
    else findGuid36 rest

/-- `duplicate_scheme(base_guid)` (lines 261-273): returns
`(new guid or None, message)`. -/
def duplicate_scheme (env : PowercfgEnv) (base_guid : String) : Option String × String :=
  if base_guid = "" then
    (none, "Base GUID boş.")
  else
    let r := _run_powercfg env ["-duplicatescheme", base_guid]
    if r.1 ≠ 0 then
      (none, if r.2 = "" then "duplicatescheme başarısız (Admin gerekli olabilir)." else r.2)
    else
      match findGuid36 r.2.data with
      | none => (none, "Yeni GUID parse edilemedi: " ++ r.2)
      | some l => (some l.asString, "OK")

/-! ## CPU policy applier (`apply_cpu_policy_to_scheme`, lines 315-368) -/

/-- CPU power setting GUID constants (lines 288-304). -/
def SUB_PROCESSOR : String := "54533251-82be-4824-96c1-47b60b740d00"

/-- EPP setting GUID (line 291). -/
def PERFEPP : String := "36687f9e-e3a5-4dbf-b1dc-15eb381c6863"

/-- Boost mode setting GUID (line 294). -/
def PERFBOOSTMODE : String := "be337238-0d82-4146-a960-4f3749d470c7"

/-- Min CPU state setting GUID (line 297). -/
def PROCTHROTTLEMIN : String := "893dee8e-2bef-41e0-89c6-b55d0929964c"

/-- Max CPU state setting GUID (line 298). -/
def PROCTHROTTLEMAX : String := "bc5038f7-23e0-4960-96da-33abaf5935ec"

/-- Core parking min cores setting GUID (line 301). -/
def CPMINCORES : String := "0cc5b647-c1df-4637-891a-dec35c318583"

/-- Cooling policy setting GUID (line 304). -/
def SYSTEMCOOLINGPOLICY : String := "94d3a615-a899-4ac5-ae2b-e4d8f634367f"

/-- The argument list `_set_value_index` passes to `powercfg`
(line 308-309): AC value set when `ac`, DC value set otherwise. -/
def svArgs (ac : Bool) (scheme subgroup setting : String) (value : Int) : List String :=
  [(if ac then "/setacvalueindex" else "/setdcvalueindex"),
   scheme, subgroup, setting, toString value]

/-- `_set_value_index(ac, scheme, subgroup, setting, value)`
(lines 307-312). -/
def _set_value_index (env : PowercfgEnv) (ac : Bool) (scheme subgroup setting : String)
    (value : Int) : Bool × String :=
  let cmd := if ac then "/setacvalueindex" else "/setdcvalueindex"
  let r := _run_powercfg env (svArgs ac scheme subgroup setting value)
  if r.1 ≠ 0 then (false, if r.2 = "" then cmd ++ " başarısız." else r.2)
  else (true, "OK")

/-- The clamping block of `apply_cpu_policy_to_scheme` (lines 332-341):
every field forced into its range, then `cpu_min` lowered to `cpu_max`
when it exceeds it. -/
def clampPolicy (p : CpuPolicy) : CpuPolicy :=
  let epp := max 0 (min 100 p.epp)
  let boost_mode := max 0 (min 2 p.boost_mode)
  let cpu_min := max 0 (min 100 p.cpu_min)
  let cpu_max := max 1 (min 100 p.cpu_max)
  let cpu_min := if cpu_min > cpu_max then cpu_max else cpu_min
  let core_parking_min := max 0 (min 100 p.core_parking_min)
  let cooling_policy : Int := if p.cooling_policy = 1 then 1 else 0
  { epp := epp, boost_mode := boost_mode, cpu_min := cpu_min, cpu_max := cpu_max,
    core_parking_min := core_parking_min, cooling_policy := cooling_policy }

/-- Result of `apply_cpu_policy_to_scheme`: the `(bool, msg)` pair the
source returns, together with the ordered trace of `powercfg` invocations
it performed (each entry is the argument list passed to `powercfg`). -/
structure CpuApplyOut where
  ok : Bool
  msg : String
  calls : List (List String)
  deriving Repr, DecidableEq

/-- `apply_cpu_policy_to_scheme(scheme_guid, plugged, epp, boost_mode,
cpu_min, cpu_max, core_parking_min, cooling_policy)` (lines 315-368).
The six per-field writes happen in source order; the results of the
boost/core-parking/cooling writes and of the final `/setactive` are
discarded by the source, so only the call itself is recorded. -/
def apply_cpu_policy_to_scheme (env : PowercfgEnv) (scheme_guid : String) (plugged : Bool)
    (epp boost_mode cpu_min cpu_max core_parking_min cooling_policy : Int) : CpuApplyOut :=
  if scheme_guid = "" then
    { ok := false, msg := "Plan GUID seçili değil.", calls := [] }
  else
    let q := clampPolicy
      { epp := epp, boost_mode := boost_mode, cpu_min := cpu_min, cpu_max := cpu_max,
        core_parking_min := core_parking_min, cooling_policy := cooling_policy }
    let is_ac := plugged
    let a1 := svArgs is_ac scheme_guid SUB_PROCESSOR PERFEPP q.epp
    let r1 := _set_value_index env is_ac scheme_guid SUB_PROCESSOR PERFEPP q.epp
    if r1.1 = false then
      { ok := false, msg := "EPP ayarlanamadı: " ++ r1.2, calls := [a1] }
    else
      let a2 := svArgs is_ac scheme_guid SUB_PROCESSOR PERFBOOSTMODE q.boost_mode
      let a3 := svArgs is_ac scheme_guid SUB_PROCESSOR PROCTHROTTLEMIN q.cpu_min
      let r3 := _set_value_index env is_ac scheme_guid SUB_PROCESSOR PROCTHROTTLEMIN q.cpu_min
      if r3.1 = false then
        { ok := false, msg := "Min CPU ayarlanamadı: " ++ r3.2, calls := [a1, a2, a3] }
      else
        let a4 := svArgs is_ac scheme_guid SUB_PROCESSOR PROCTHROTTLEMAX q.cpu_max
        let r4 := _set_value_index env is_ac scheme_guid SUB_PROCESSOR PROCTHROTTLEMAX q.cpu_max
        if r4.1 = false then
          { ok := false, msg := "Max CPU ayarlanamadı: " ++ r4.2, calls := [a1, a2, a3, a4] }
        else
          let a5 := svArgs is_ac scheme_guid SUB_PROCESSOR CPMINCORES q.core_parking_min
          let a6 := svArgs is_ac scheme_guid SUB_PROCESSOR SYSTEMCOOLINGPOLICY q.cooling_policy
          { ok := true, msg := "OK",
            calls := [a1, a2, a3, a4, a5, a6, ["/setactive", scheme_guid]] }

/-! ## Orchestrator (`_apply_targets`, lines 940-963) -/

/-- OS-level operation invoked by `_apply_targets`, with the arguments the
source passes. -/
inductive OsAction where
  | activateScheme (guid : Json)
  | applyCpuPolicy (guid : Json) (plugged : Bool) (pol : CpuPolicy)
  | setDisplayHz (hz : Int)
  deriving Repr

/-- Outcomes of the three OS-facing helpers `_apply_targets` calls; the
source discards every one of these results. -/
structure ApplyEnv where
  set_scheme : Json → Bool × String
  apply_policy : Json → Bool → CpuPolicy → Bool × String
  run_set_hz : Int → Bool × String

/-- `_apply_targets(plugged)` (lines 940-963).  Returns the ordered list
of OS operations invoked, and `false` in the second component when
`int(target_hz)` raises (a non-null, non-int-convertible `target_hz`
aborts the method with an uncaught exception before `set_hz` is reached).
The guards mirror the source: Python `and` on a toggle bool and the
truthiness of the configured plan guid, and `target_hz is not None` for
the display step. -/
def _apply_targets (env : ApplyEnv) (cfg : AppConfig) (plugged : Bool) : List OsAction × Bool :=
  let target_hz := if plugged then cfg.ac_hz else cfg.battery_hz
  let target_plan := if plugged then cfg.ac_plan_guid else cfg.battery_plan_guid
  let pol := if plugged then cfg.cpu_ac else cfg.cpu_bat
  let planActs :=
    if cfg.set_power_plan && pyTruthy target_plan then
      let _ := env.set_scheme target_plan
      [OsAction.activateScheme target_plan]
    else []
  let cpuActs :=
    if cfg.set_cpu_policy && pyTruthy target_plan then
      let _ := env.apply_policy target_plan plugged pol
      [OsAction.applyCpuPolicy target_plan plugged pol]
    else []
  match target_hz with
  | Json.null => (planActs ++ cpuActs, true)
  | hzVal =>
    match pyToInt hzVal with
    | some n =>
      let _ := env.run_set_hz n
      (planActs ++ cpuActs ++ [OsAction.setDisplayHz n], true)
    | none => (planActs ++ cpuActs, false)

/-! ## Statement shortcuts and concrete fixtures used by the theorems -/

/-- `CpuPolicy` from the six positional arguments of
`apply_cpu_policy_to_scheme`, in source order. -/
def mkPolicy (e b mn mx cp cl : Int) : CpuPolicy :=
  { epp := e, boost_mode := b, cpu_min := mn, cpu_max := mx,
    core_parking_min := cp, cooling_policy := cl }

/-- Argument list of a CPU sub-policy write: `svArgs` specialised to the
processor subgroup, which is the only subgroup the source writes. -/
def svA (pl : Bool) (g setting : String) (v : Int) : List String :=
  svArgs pl g SUB_PROCESSOR setting v

/-- Environment where every `powercfg` invocation succeeds with empty
output. -/
def pcEnvOk : PowercfgEnv := ⟨fun _ => (0, "")⟩

/-- Environment where `/setactive` fails (nonzero exit) and every other
`powercfg` invocation succeeds. -/
def pcEnvActFail : PowercfgEnv :=
  ⟨fun args => if args.headD "" = "/setactive" then (1, "Erişim engellendi.") else (0, "")⟩

/-- Environment whose `powercfg` output is the scenario text from the
spec's `duplicate` test. -/
def dupEnvSample : PowercfgEnv :=
  ⟨fun _ => (0, "Power Scheme GUID: 3c0a2e9c-1111-2222-3333-444455556666  (Test Plan)")⟩

/-- Display environment whose current rate is 165 Hz. -/
def dispEnvSame : DisplayEnv :=
  { device := some "DISPLAY1", current := Except.ok 165,
    supported := [60, 120, 165], change_result := Except.ok () }

/-- Display environment whose current rate is 60 Hz with supported set
`[60, 120, 165]`. -/
def dispEnvOther : DisplayEnv :=
  { device := some "DISPLAY1", current := Except.ok 60,
    supported := [60, 120, 165], change_result := Except.ok () }

/-- Plan environment where `/setactive` exits 0 but the re-read active
scheme is a different GUID. -/
def planEnvMismatch : PlanEnv :=
  { setactive := (0, "tamam"), active_after := some "99999999-aaaa-bbbb-cccc-dddddddddddd" }

/-- Orchestrator environment where every OS-facing helper reports
failure. -/
def applyEnvFail : ApplyEnv :=
  { set_scheme := fun _ => (false, "etkinleştirilemedi"),
    apply_policy := fun _ _ _ => (false, "cpu yazılamadı"),
    run_set_hz := fun _ => (false, "hz ayarlanamadı") }

/-- Orchestrator environment where every OS-facing helper reports
success. -/
def applyEnvOk : ApplyEnv :=
  { set_scheme := fun _ => (true, "OK"),
    apply_policy := fun _ _ _ => (true, "OK"),
    run_set_hz := fun _ => (true, "OK") }

/-- Sample configuration: both toggles on (the defaults), an AC target of
165 Hz and a configured AC plan GUID. -/
def cfgSample : AppConfig :=
  { ac_hz := Json.int 165, ac_plan_guid := Json.str "3c0a2e9c-1111-2222-3333-444455556666" }

/-- A malformed `CpuPolicy` sub-document relative to its fallback: either
not a dict at all (`d.get` raises in `_dict_to_cpu_policy`), or a dict
one of whose six fields is not int-convertible (the corresponding
`int(...)` raises).  These are exactly the inputs on which the source's
`except` clause produces the fallback policy. -/
def badCpuSubdoc (v : Json) (fallback : CpuPolicy) : Prop :=
  v.isObj = false ∨
  ∃ kvs2 : List (String × Json), v = Json.obj kvs2 ∧
    (pyToInt (jgetD kvs2 "epp" (Json.int fallback.epp)) = none ∨
     pyToInt (jgetD kvs2 "boost_mode" (Json.int fallback.boost_mode)) = none ∨
     pyToInt (jgetD kvs2 "cpu_min" (Json.int fallback.cpu_min)) = none ∨
     pyToInt (jgetD kvs2 "cpu_max" (Json.int fallback.cpu_max)) = none ∨
     pyToInt (jgetD kvs2 "core_parking_min" (Json.int fallback.core_parking_min)) = none ∨
     pyToInt (jgetD kvs2 "cooling_policy" (Json.int fallback.cooling_policy)) = none)

/-! ## Theorems -/

/-- C3: after the clamping step of `apply_cpu_policy_to_scheme`, every
field lies in its declared range (`epp ∈ [0,100]`, boost mode `∈ [0,2]`,
min clock `∈ [0,100]`, max clock `∈ [1,100]`, core-parking floor
`∈ [0,100]`, cooling policy `∈ {0,1}`), and `cpu_min ≤ cpu_max` holds,
enforced only by lowering min to max (the clamped max depends on the max
input alone, and the clamped min is the range-clamped min capped at the
clamped max); in particular min 80 with max 50 yields min 50 and
max 50. -/
theorem clampPolicy_ranges :
    (∀ p : CpuPolicy,
      0 ≤ (clampPolicy p).epp ∧ (clampPolicy p).epp ≤ 100 ∧
      0 ≤ (clampPolicy p).boost_mode ∧ (clampPolicy p).boost_mode ≤ 2 ∧
      0 ≤ (clampPolicy p).cpu_min ∧ (clampPolicy p).cpu_min ≤ 100 ∧
      1 ≤ (clampPolicy p).cpu_max ∧ (clampPolicy p).cpu_max ≤ 100 ∧
      0 ≤ (clampPolicy p).core_parking_min ∧ (clampPolicy p).core_parking_min ≤ 100 ∧
      ((clampPolicy p).cooling_policy = 0 ∨ (clampPolicy p).cooling_policy = 1) ∧
      (clampPolicy p).cpu_min ≤ (clampPolicy p).cpu_max ∧
      (clampPolicy p).cpu_max = max 1 (min 100 p.cpu_max) ∧
      (clampPolicy p).cpu_min = min (max 0 (min 100 p.cpu_min)) (clampPolicy p).cpu_max) ∧
    clampPolicy (mkPolicy 0 1 80 50 100 1) = mkPolicy 0 1 50 50 100 1 := by
  refine ⟨fun p => ?_, by decide⟩
  simp only [clampPolicy]
  refine ⟨le_max_left _ _, max_le (by norm_num) (min_le_left _ _),
          le_max_left _ _, max_le (by norm_num) (min_le_left _ _),
          ?_, ?_,
          le_max_left _ _, max_le (by norm_num) (min_le_left _ _),
          le_max_left _ _, max_le (by norm_num) (min_le_left _ _),
          ?_, ?_, trivial, ?_⟩
  · split_ifs with h
    · exact le_trans (by norm_num) (le_max_left 1 (min 100 p.cpu_max))
    · exact le_max_left _ _
  · split_ifs with h
    · exact max_le (by norm_num) (min_le_left _ _)
    · exact max_le (by norm_num) (min_le_left _ _)
  · split_ifs with h
    · exact Or.inr rfl
    · exact Or.inl rfl
  · split_ifs with h
    · exact le_refl _
    · exact le_of_not_lt h
  · split_ifs with h
    · exact (min_eq_right (le_of_lt h)).symm
    · exact (min_eq_left (not_lt.mp h)).symm

/-- C4: when the requested rate equals the display's current refresh
rate, `set_hz` returns success without reaching the OS mode-change
call. -/
theorem set_hz_same_rate_noop (env : DisplayEnv) (hz : Int)
    (hdev : deviceMissing env.device = false)
    (hcur : env.current = Except.ok hz) :
    set_hz env hz = { ok := true, msg := "Zaten bu Hz'de.", change_invoked := false } := by
  simp [set_hz, hdev, hcur]

/-- C4 witness: requesting 165 Hz when the current rate is 165 Hz. -/
theorem set_hz_same_rate_noop_witness :
    deviceMissing dispEnvSame.device = false ∧ dispEnvSame.current = Except.ok 165 ∧
    set_hz dispEnvSame 165 = { ok := true, msg := "Zaten bu Hz'de.", change_invoked := false } :=
  ⟨rfl, rfl, set_hz_same_rate_noop dispEnvSame 165 rfl rfl⟩

/-- C5: when the requested rate differs from the current rate and the
supported-frequency set is non-empty and does not contain it, `set_hz`
fails with the unsupported-mode message enumerating the supported set,
and the OS mode-change call is not reached. -/
theorem set_hz_unsupported (env : DisplayEnv) (hz c : Int)
    (hdev : deviceMissing env.device = false)
    (hcur : env.current = Except.ok c) (hne : c ≠ hz)
    (hsup : env.supported ≠ []) (hmem : hz ∉ env.supported) :
    set_hz env hz =
      { ok := false,
        msg := toString hz ++ " Hz desteklenmiyor. Desteklenen: " ++ pyListRepr env.supported,
        change_invoked := false } := by
  simp [set_hz, hdev, hcur, hne, hsup, hmem]

/-- C5 witness: requesting 144 Hz when the current rate is 60 Hz and the
supported set is `[60, 120, 165]`. -/
theorem set_hz_unsupported_witness :
    deviceMissing dispEnvOther.device = false ∧ dispEnvOther.current = Except.ok 60 ∧
    (60 : Int) ≠ 144 ∧ dispEnvOther.supported ≠ [] ∧ (144 : Int) ∉ dispEnvOther.supported ∧
    set_hz dispEnvOther 144 =
      { ok := false, msg := "144 Hz desteklenmiyor. Desteklenen: [60, 120, 165]",
        change_invoked := false } :=
  ⟨rfl, rfl, by decide, by decide, by decide,
   set_hz_unsupported dispEnvOther 144 60 rfl rfl (by decide) (by decide) (by decide)⟩

/-- C6: `set_power_scheme_by_guid` fails with the empty-GUID error
without invoking the OS when the GUID is empty; otherwise, when the OS
activation exits 0 but the re-read active GUID does not match the
requested one (case-insensitively, as the source compares), it returns
the verification-failed message — a reported failure, not success. -/
theorem set_power_scheme_spec (env : PlanEnv) (guid : String) :
    (guid = "" →
      set_power_scheme_by_guid env guid =
        { ok := false, msg := "GUID boş.", os_invoked := false }) ∧
    (guid ≠ "" → env.setactive.1 = 0 →
      strLower (env.active_after.getD "") ≠ strLower guid →
      set_power_scheme_by_guid env guid =
        { ok := false, msg := "Plan değişti doğrulanamadı (OEM kısıtı olabilir).",
          os_invoked := true }) := by
  constructor
  · intro h
    simp [set_power_scheme_by_guid, h]
  · intro h h0 hne
    simp [set_power_scheme_by_guid, h, h0, hne]

/-- C6 witness: the empty GUID, and a non-empty GUID whose post-read
active scheme differs. -/
theorem set_power_scheme_spec_witness :
    set_power_scheme_by_guid planEnvMismatch "" =
      { ok := false, msg := "GUID boş.", os_invoked := false } ∧
    (("3c0a2e9c-1111-2222-3333-444455556666" : String) ≠ "") ∧
    planEnvMismatch.setactive.1 = 0 ∧
    strLower (planEnvMismatch.active_after.getD "") ≠
      strLower "3c0a2e9c-1111-2222-3333-444455556666" ∧
    set_power_scheme_by_guid planEnvMismatch "3c0a2e9c-1111-2222-3333-444455556666" =
      { ok := false, msg := "Plan değişti doğrulanamadı (OEM kısıtı olabilir).",
        os_invoked := true } :=
  ⟨(set_power_scheme_spec planEnvMismatch "").1 rfl,
   by decide, rfl, by decide,
   (set_power_scheme_spec planEnvMismatch "3c0a2e9c-1111-2222-3333-444455556666").2
     (by decide) rfl (by decide)⟩

/-- C7: `duplicate_scheme` fails with the permission/OS error when the
command's exit status is nonzero, fails with the parse error when the
output contains no 36-character GUID run, and otherwise returns the first
(leftmost) 36-character GUID of the output; on the spec's sample output
it returns `3c0a2e9c-1111-2222-3333-444455556666`. -/
theorem duplicate_scheme_spec (env : PowercfgEnv) (g : String) :
    (g ≠ "" → (env.run ["-duplicatescheme", g]).1 ≠ 0 →
      duplicate_scheme env g =
        (none,
         if (env.run ["-duplicatescheme", g]).2 = ""
         then "duplicatescheme başarısız (Admin gerekli olabilir)."
         else (env.run ["-duplicatescheme", g]).2)) ∧
    (g ≠ "" → (env.run ["-duplicatescheme", g]).1 = 0 →
      findGuid36 (env.run ["-duplicatescheme", g]).2.data = none →
      duplicate_scheme env g =
        (none, "Yeni GUID parse edilemedi: " ++ (env.run ["-duplicatescheme", g]).2)) ∧
    (∀ l : List Char, g ≠ "" → (env.run ["-duplicatescheme", g]).1 = 0 →
      findGuid36 (env.run ["-duplicatescheme", g]).2.data = some l →
      duplicate_scheme env g = (some l.asString, "OK")) ∧
    duplicate_scheme dupEnvSample "base" =
      (some "3c0a2e9c-1111-2222-3333-444455556666", "OK") := by
  refine ⟨fun hg h => ?_, fun hg h0 hp => ?_, fun l hg h0 hp => ?_, rfl⟩
  · simp [duplicate_scheme, _run_powercfg, hg, h]
  · simp [duplicate_scheme, _run_powercfg, hg, h0, hp]
  · simp [duplicate_scheme, _run_powercfg, hg, h0, hp]

/-- C7 witness: the sample output parses to the expected GUID through the
success branch. -/
theorem duplicate_scheme_spec_witness :
    (("base" : String) ≠ "") ∧
    (dupEnvSample.run ["-duplicatescheme", "base"]).1 = 0 ∧
    findGuid36 (dupEnvSample.run ["-duplicatescheme", "base"]).2.data =
      some "3c0a2e9c-1111-2222-3333-444455556666".data ∧
    duplicate_scheme dupEnvSample "base" =
      (some ("3c0a2e9c-1111-2222-3333-444455556666".data.asString), "OK") :=
  ⟨by decide, rfl, rfl,
   (duplicate_scheme_spec dupEnvSample "base").2.2.1
     "3c0a2e9c-1111-2222-3333-444455556666".data (by decide) rfl rfl⟩

/-- C9: starting from any persisted document produced by `save_config`,
loading and saving twice in a row yields identical persisted documents —
`save_config` writes the document through the deterministic `json.dump`,
so equal documents are byte-for-byte identical files. -/
theorem save_load_roundtrip_stable (cfg : AppConfig) :
    save_config (load_config (some (save_config cfg))) = save_config cfg ∧
    save_config (load_config (some (save_config (load_config (some (save_config cfg)))))) =
      save_config (load_config (some (save_config cfg))) :=
  ⟨rfl, rfl⟩

/-- Helper: `_dict_to_cpu_policy` applied through the `or {}` guard to a
non-object value always yields the fallback policy: a falsy value is
replaced by the empty dict (whose lookups all default to the fallback
fields), and a truthy non-dict makes `d.get` raise, which the function
catches by returning the fallback. -/
theorem dict_to_cpu_policy_nonobj (v : Json) (h : v.isObj = false) (fallback : CpuPolicy) :
    _dict_to_cpu_policy (pyOrEmptyDict v) fallback = fallback := by
  cases v with
  | null => rfl
  | bool b => cases b <;> rfl
  | int n => unfold pyOrEmptyDict; split <;> rfl
  | str s => unfold pyOrEmptyDict; split <;> rfl
  | arr xs => unfold pyOrEmptyDict; split <;> rfl
  | obj kvs => exact absurd h (by simp [Json.isObj])

/-- Helper: `_dict_to_cpu_policy` applied through the `or {}` guard to a
dict one of whose six fields is not int-convertible yields the fallback
policy (the `int(...)` conversion raises and the `except` clause
returns the fallback). -/
theorem dict_to_cpu_policy_badfield (kvs2 : List (String × Json)) (fallback : CpuPolicy)
    (h : pyToInt (jgetD kvs2 "epp" (Json.int fallback.epp)) = none ∨
         pyToInt (jgetD kvs2 "boost_mode" (Json.int fallback.boost_mode)) = none ∨
         pyToInt (jgetD kvs2 "cpu_min" (Json.int fallback.cpu_min)) = none ∨
         pyToInt (jgetD kvs2 "cpu_max" (Json.int fallback.cpu_max)) = none ∨
         pyToInt (jgetD kvs2 "core_parking_min" (Json.int fallback.core_parking_min)) = none ∨
         pyToInt (jgetD kvs2 "cooling_policy" (Json.int fallback.cooling_policy)) = none) :
    _dict_to_cpu_policy (pyOrEmptyDict (Json.obj kvs2)) fallback = fallback := by
  cases kvs2 with
  | nil => simp [jgetD, pyToInt] at h
  | cons hd tl =>
    show _dict_to_cpu_policy (Json.obj (hd :: tl)) fallback = fallback
    simp only [_dict_to_cpu_policy]
    cases e1 : pyToInt (jgetD (hd :: tl) "epp" (Json.int fallback.epp)) <;>
    cases e2 : pyToInt (jgetD (hd :: tl) "boost_mode" (Json.int fallback.boost_mode)) <;>
    cases e3 : pyToInt (jgetD (hd :: tl) "cpu_min" (Json.int fallback.cpu_min)) <;>
    cases e4 : pyToInt (jgetD (hd :: tl) "cpu_max" (Json.int fallback.cpu_max)) <;>
    cases e5 : pyToInt (jgetD (hd :: tl) "core_parking_min" (Json.int fallback.core_parking_min)) <;>
    cases e6 : pyToInt (jgetD (hd :: tl) "cooling_policy" (Json.int fallback.cooling_policy)) <;>
    simp_all

/-- C8 counterexample: the persisted document `{"ac_hz": "garbage"}` has a
field of the wrong shape (the data model declares `ac_hz` as an optional
int), yet `load_config` does not return the fully defaulted `AppConfig`:
it carries the garbage value through unchanged. -/
theorem load_config_wrong_shape_cex :
    (load_config (some (Json.obj [("ac_hz", Json.str "garbage")]))).ac_hz =
      Json.str "garbage" ∧
    load_config (some (Json.obj [("ac_hz", Json.str "garbage")])) ≠ ({} : AppConfig) := by
  refine ⟨rfl, fun h => ?_⟩
  have h2 := congrArg AppConfig.ac_hz h
  exact Json.noConfusion (show Json.str "garbage" = Json.null from h2)

/-- C8 amended: `load_config` never raises (it is a total function of the
persisted document); an absent, unreadable, non-JSON or non-object
document yields the fully defaulted `AppConfig`; a malformed `CpuPolicy`
sub-document — a non-dict value, or a dict with a non-int-convertible
field — is individually replaced by its AC/battery default; but other
fields of the wrong shape inside a JSON object are not defaulted: the
toggle fields are coerced by Python truthiness and the hz/guid fields
are carried through unchanged. -/
theorem load_config_malformed_defaults :
    load_config none = ({} : AppConfig) ∧
    (∀ j : Json, j.isObj = false → load_config (some j) = ({} : AppConfig)) ∧
    (∀ kvs : List (String × Json), badCpuSubdoc (jgetD kvs "cpu_ac" (Json.obj [])) default_cpu_ac →
      (load_config (some (Json.obj kvs))).cpu_ac = default_cpu_ac) ∧
    (∀ kvs : List (String × Json), badCpuSubdoc (jgetD kvs "cpu_bat" (Json.obj [])) default_cpu_bat →
      (load_config (some (Json.obj kvs))).cpu_bat = default_cpu_bat) ∧
    (∀ kvs : List (String × Json),
      (load_config (some (Json.obj kvs))).auto_mode =
        pyTruthy (jgetD kvs "auto_mode" (Json.bool true)) ∧
      (load_config (some (Json.obj kvs))).set_power_plan =
        pyTruthy (jgetD kvs "set_power_plan" (Json.bool true)) ∧
      (load_config (some (Json.obj kvs))).set_cpu_policy =
        pyTruthy (jgetD kvs "set_cpu_policy" (Json.bool true))) ∧
    (∀ kvs : List (String × Json),
      (load_config (some (Json.obj kvs))).ac_hz = jgetD kvs "ac_hz" Json.null ∧
      (load_config (some (Json.obj kvs))).battery_hz = jgetD kvs "battery_hz" Json.null ∧
      (load_config (some (Json.obj kvs))).ac_plan_guid = jgetD kvs "ac_plan_guid" Json.null ∧
      (load_config (some (Json.obj kvs))).battery_plan_guid =
        jgetD kvs "battery_plan_guid" Json.null) := by
  refine ⟨rfl, fun j hj => ?_, fun kvs h => ?_, fun kvs h => ?_,
          fun kvs => ⟨rfl, rfl, rfl⟩, fun kvs => ⟨rfl, rfl, rfl, rfl⟩⟩
  · cases j with
    | null => rfl
    | bool b => rfl
    | int n => rfl
    | str s => rfl
    | arr xs => rfl
    | obj kvs => exact absurd hj (by simp [Json.isObj])
  · rcases h with h | ⟨kvs2, hv, hbad⟩
    · exact dict_to_cpu_policy_nonobj _ h _
    · show _dict_to_cpu_policy (pyOrEmptyDict (jgetD kvs "cpu_ac" (Json.obj []))) default_cpu_ac =
        default_cpu_ac
      rw [hv]
      exact dict_to_cpu_policy_badfield kvs2 default_cpu_ac hbad
  · rcases h with h | ⟨kvs2, hv, hbad⟩
    · exact dict_to_cpu_policy_nonobj _ h _
    · show _dict_to_cpu_policy (pyOrEmptyDict (jgetD kvs "cpu_bat" (Json.obj []))) default_cpu_bat =
        default_cpu_bat
      rw [hv]
      exact dict_to_cpu_policy_badfield kvs2 default_cpu_bat hbad

/-- C8 amended witness: a non-object document (`5`) loads as the full
default; a document whose `cpu_ac` is the string `"x"` loads with the
default AC policy; and a document whose `cpu_ac` is the dict
`{"epp": null}` (an object sub-document with a non-int-convertible
field) also loads with the default AC policy. -/
theorem load_config_malformed_defaults_witness :
    (Json.int 5).isObj = false ∧
    load_config (some (Json.int 5)) = ({} : AppConfig) ∧
    badCpuSubdoc (jgetD [("cpu_ac", Json.str "x")] "cpu_ac" (Json.obj [])) default_cpu_ac ∧
    (load_config (some (Json.obj [("cpu_ac", Json.str "x")]))).cpu_ac = default_cpu_ac ∧
    badCpuSubdoc (jgetD [("cpu_ac", Json.obj [("epp", Json.null)])] "cpu_ac" (Json.obj []))
      default_cpu_ac ∧
    (load_config (some (Json.obj [("cpu_ac", Json.obj [("epp", Json.null)])]))).cpu_ac =
      default_cpu_ac :=
  ⟨rfl, load_config_malformed_defaults.2.1 (Json.int 5) rfl,
   Or.inl rfl,
   load_config_malformed_defaults.2.2.1 [("cpu_ac", Json.str "x")] (Or.inl rfl),
   Or.inr ⟨[("epp", Json.null)], rfl, Or.inl rfl⟩,
   load_config_malformed_defaults.2.2.1 [("cpu_ac", Json.obj [("epp", Json.null)])]
     (Or.inr ⟨[("epp", Json.null)], rfl, Or.inl rfl⟩)⟩

/-- C2: `apply_cpu_policy_to_scheme` writes the six fields in the fixed
order EPP, boost, min clock, max clock, core-parking, cooling policy —
each through `/setacvalueindex` when on AC, `/setdcvalueindex` otherwise
(`svA` builds exactly that argument list) — where a failed EPP, min-clock
or max-clock write aborts with the mandatory-field error message and
skips every remaining write, failures of the boost, core-parking and
cooling writes are ignored (the environment is unconstrained on them in
every conjunct), and the success path ends by re-activating the scheme
(`/setactive`). -/
theorem apply_cpu_policy_writes (env : PowercfgEnv) (g : String) (pl : Bool)
    (e b mn mx cp cl : Int) (q : CpuPolicy) (hg : g ≠ "")
    (hq : clampPolicy (mkPolicy e b mn mx cp cl) = q) :
    ((env.run (svA pl g PERFEPP q.epp)).1 ≠ 0 →
      apply_cpu_policy_to_scheme env g pl e b mn mx cp cl =
        { ok := false,
          msg := "EPP ayarlanamadı: " ++
            (_set_value_index env pl g SUB_PROCESSOR PERFEPP q.epp).2,
          calls := [svA pl g PERFEPP q.epp] }) ∧
    ((env.run (svA pl g PERFEPP q.epp)).1 = 0 →
     (env.run (svA pl g PROCTHROTTLEMIN q.cpu_min)).1 ≠ 0 →
      apply_cpu_policy_to_scheme env g pl e b mn mx cp cl =
        { ok := false,
          msg := "Min CPU ayarlanamadı: " ++
            (_set_value_index env pl g SUB_PROCESSOR PROCTHROTTLEMIN q.cpu_min).2,
          calls := [svA pl g PERFEPP q.epp, svA pl g PERFBOOSTMODE q.boost_mode,
                    svA pl g PROCTHROTTLEMIN q.cpu_min] }) ∧
    ((env.run (svA pl g PERFEPP q.epp)).1 = 0 →
     (env.run (svA pl g PROCTHROTTLEMIN q.cpu_min)).1 = 0 →
     (env.run (svA pl g PROCTHROTTLEMAX q.cpu_max)).1 ≠ 0 →
      apply_cpu_policy_to_scheme env g pl e b mn mx cp cl =
        { ok := false,
          msg := "Max CPU ayarlanamadı: " ++
            (_set_value_index env pl g SUB_PROCESSOR PROCTHROTTLEMAX q.cpu_max).2,
          calls := [svA pl g PERFEPP q.epp, svA pl g PERFBOOSTMODE q.boost_mode,
                    svA pl g PROCTHROTTLEMIN q.cpu_min, svA pl g PROCTHROTTLEMAX q.cpu_max] }) ∧
    ((env.run (svA pl g PERFEPP q.epp)).1 = 0 →
     (env.run (svA pl g PROCTHROTTLEMIN q.cpu_min)).1 = 0 →
     (env.run (svA pl g PROCTHROTTLEMAX q.cpu_max)).1 = 0 →
      apply_cpu_policy_to_scheme env g pl e b mn mx cp cl =
        { ok := true, msg := "OK",
          calls := [svA pl g PERFEPP q.epp, svA pl g PERFBOOSTMODE q.boost_mode,
                    svA pl g PROCTHROTTLEMIN q.cpu_min, svA pl g PROCTHROTTLEMAX q.cpu_max,
                    svA pl g CPMINCORES q.core_parking_min,
                    svA pl g SYSTEMCOOLINGPOLICY q.cooling_policy,
                    ["/setactive", g]] }) := by
  subst hq
  refine ⟨fun h1 => ?_, fun h1 h3 => ?_, fun h1 h3 h4 => ?_, fun h1 h3 h4 => ?_⟩
  · simp only [svA, svArgs, mkPolicy] at h1
    simp [apply_cpu_policy_to_scheme, _set_value_index, _run_powercfg, svA, svArgs, mkPolicy,
          hg, h1]
  · simp only [svA, svArgs, mkPolicy] at h1 h3
    simp [apply_cpu_policy_to_scheme, _set_value_index, _run_powercfg, svA, svArgs, mkPolicy,
          hg, h1, h3]
  · simp only [svA, svArgs, mkPolicy] at h1 h3 h4
    simp [apply_cpu_policy_to_scheme, _set_value_index, _run_powercfg, svA, svArgs, mkPolicy,
          hg, h1, h3, h4]
  · simp only [svA, svArgs, mkPolicy] at h1 h3 h4
    simp [apply_cpu_policy_to_scheme, _set_value_index, _run_powercfg, svA, svArgs, mkPolicy,
          hg, h1, h3, h4]

/-- C2 witness: with every `powercfg` call succeeding, the out-of-range
policy (200, 5, 80, 50, 150, 7) is clamped to (100, 2, 50, 50, 100, 0)
and all seven calls are issued in order. -/
theorem apply_cpu_policy_writes_witness :
    (("G" : String) ≠ "") ∧
    clampPolicy (mkPolicy 200 5 80 50 150 7) = mkPolicy 100 2 50 50 100 0 ∧
    (pcEnvOk.run (svA true "G" PERFEPP 100)).1 = 0 ∧
    (pcEnvOk.run (svA true "G" PROCTHROTTLEMIN 50)).1 = 0 ∧
    (pcEnvOk.run (svA true "G" PROCTHROTTLEMAX 50)).1 = 0 ∧
    apply_cpu_policy_to_scheme pcEnvOk "G" true 200 5 80 50 150 7 =
      { ok := true, msg := "OK",
        calls := [svA true "G" PERFEPP 100, svA true "G" PERFBOOSTMODE 2,
                  svA true "G" PROCTHROTTLEMIN 50, svA true "G" PROCTHROTTLEMAX 50,
                  svA true "G" CPMINCORES 100, svA true "G" SYSTEMCOOLINGPOLICY 0,
                  ["/setactive", "G"]] } :=
  ⟨by decide, by decide, rfl, rfl, rfl,
   (apply_cpu_policy_writes pcEnvOk "G" true 200 5 80 50 150 7 (mkPolicy 100 2 50 50 100 0)
      (by decide) (by decide)).2.2.2 rfl rfl rfl⟩

/-- C10: whenever the three mandatory writes (EPP, min clock, max clock)
succeed, `apply_cpu_policy_to_scheme` returns `(True, "OK")` even though
the final `/setactive` re-activation is among its calls with its result
discarded — the environment is unconstrained on `/setactive`, so a failed
re-activation is never reported to the caller. -/
theorem apply_cpu_policy_discards_reactivation (env : PowercfgEnv) (g : String) (pl : Bool)
    (e b mn mx cp cl : Int) (hg : g ≠ "")
    (h1 : (env.run (svA pl g PERFEPP (clampPolicy (mkPolicy e b mn mx cp cl)).epp)).1 = 0)
    (h3 : (env.run (svA pl g PROCTHROTTLEMIN (clampPolicy (mkPolicy e b mn mx cp cl)).cpu_min)).1 = 0)
    (h4 : (env.run (svA pl g PROCTHROTTLEMAX (clampPolicy (mkPolicy e b mn mx cp cl)).cpu_max)).1 = 0) :
    (apply_cpu_policy_to_scheme env g pl e b mn mx cp cl).ok = true ∧
    (apply_cpu_policy_to_scheme env g pl e b mn mx cp cl).msg = "OK" ∧
    ["/setactive", g] ∈ (apply_cpu_policy_to_scheme env g pl e b mn mx cp cl).calls := by
  simp only [svA, svArgs, mkPolicy] at h1 h3 h4
  simp [apply_cpu_policy_to_scheme, _set_value_index, _run_powercfg, svA, svArgs, mkPolicy,
        hg, h1, h3, h4]

/-- C10 witness: under an environment whose `/setactive` exits with
status 1, the call still reports `(True, "OK")`. -/
theorem apply_cpu_policy_discards_reactivation_witness :
    (pcEnvActFail.run ["/setactive", "G"]).1 = 1 ∧
    (("G" : String) ≠ "") ∧
    (pcEnvActFail.run (svA true "G" PERFEPP (clampPolicy (mkPolicy 0 2 5 100 100 1)).epp)).1 = 0 ∧
    (apply_cpu_policy_to_scheme pcEnvActFail "G" true 0 2 5 100 100 1).ok = true ∧
    (apply_cpu_policy_to_scheme pcEnvActFail "G" true 0 2 5 100 100 1).msg = "OK" ∧
    ["/setactive", "G"] ∈ (apply_cpu_policy_to_scheme pcEnvActFail "G" true 0 2 5 100 100 1).calls := by
  have h := apply_cpu_policy_discards_reactivation pcEnvActFail "G" true 0 2 5 100 100 1
    (by decide) rfl rfl rfl
  exact ⟨rfl, by decide, rfl, h.1, h.2.1, h.2.2⟩

/-- C1: `_apply_targets` activates the configured target scheme exactly
when the power-plan toggle is on and a target scheme guid is configured
(truthy), applies the per-state CPU policy exactly when the CPU-policy
toggle is on and a target scheme guid is configured, sets the display
frequency exactly when a target Hz is configured (not `None`), and its
behaviour is independent of the outcomes of the OS calls — in
particular a scheme-activation failure never prevents the CPU-policy and
Hz steps. -/
theorem apply_targets_spec (env env2 : ApplyEnv) (cfg : AppConfig) (plugged : Bool)
    (hhz : (if plugged then cfg.ac_hz else cfg.battery_hz) = Json.null ∨
      ∃ n : Int, (if plugged then cfg.ac_hz else cfg.battery_hz) = Json.int n) :
    (OsAction.activateScheme (if plugged then cfg.ac_plan_guid else cfg.battery_plan_guid) ∈
        (_apply_targets env cfg plugged).1 ↔
      cfg.set_power_plan = true ∧
        pyTruthy (if plugged then cfg.ac_plan_guid else cfg.battery_plan_guid) = true) ∧
    (OsAction.applyCpuPolicy (if plugged then cfg.ac_plan_guid else cfg.battery_plan_guid)
        plugged (if plugged then cfg.cpu_ac else cfg.cpu_bat) ∈
        (_apply_targets env cfg plugged).1 ↔
      cfg.set_cpu_policy = true ∧
        pyTruthy (if plugged then cfg.ac_plan_guid else cfg.battery_plan_guid) = true) ∧
    (∀ n : Int, (if plugged then cfg.ac_hz else cfg.battery_hz) = Json.int n →
      OsAction.setDisplayHz n ∈ (_apply_targets env cfg plugged).1) ∧
    ((∃ n : Int, OsAction.setDisplayHz n ∈ (_apply_targets env cfg plugged).1) ↔
      (if plugged then cfg.ac_hz else cfg.battery_hz) ≠ Json.null) ∧
    _apply_targets env cfg plugged = _apply_targets env2 cfg plugged := by
  rcases hhz with h | ⟨n, h⟩ <;>
    simp only [_apply_targets] <;>
    rw [h] <;>
    cases hsp : cfg.set_power_plan <;>
    cases hsc : cfg.set_cpu_policy <;>
    cases hpt : pyTruthy (if plugged then cfg.ac_plan_guid else cfg.battery_plan_guid) <;>
    simp [h, pyToInt]

/-- C1 witness: plugged state, both toggles on, AC plan configured and an
AC target of 165 Hz; the activation-failing and all-success environments
produce the same actions, which include scheme activation and the 165 Hz
display step. -/
theorem apply_targets_spec_witness :
    ((if true then cfgSample.ac_hz else cfgSample.battery_hz) = Json.null ∨
      ∃ n : Int, (if true then cfgSample.ac_hz else cfgSample.battery_hz) = Json.int n) ∧
    OsAction.activateScheme (if true then cfgSample.ac_plan_guid else cfgSample.battery_plan_guid) ∈
      (_apply_targets applyEnvFail cfgSample true).1 ∧
    OsAction.setDisplayHz 165 ∈ (_apply_targets applyEnvFail cfgSample true).1 ∧
    _apply_targets applyEnvFail cfgSample true = _apply_targets applyEnvOk cfgSample true := by
  have h := apply_targets_spec applyEnvFail applyEnvOk cfgSample true (Or.inr ⟨165, rfl⟩)
  exact ⟨Or.inr ⟨165, rfl⟩, h.1.mpr ⟨rfl, rfl⟩, h.2.2.1 165 rfl, h.2.2.2.2⟩

end OmenHz
